import Mathlib

/-!
Shallow embedding of `server.py`, a small Flask HTTP facade around an LLM
inference library.  JSON values are modelled by `JValue`, Python exceptions by
`PyErr` (distinguishing `KeyError`, `ValueError` and everything else, since the
handlers dispatch on exactly those classes), the inference library by the
`Collab` structure of oracle functions, and each endpoint handler as a pure
function from a parsed JSON body to an HTTP status and JSON response body.
Numbers are modelled by rationals; Python `bool` participates in numeric
comparisons with `True = 1`, `False = 0`, as in CPython.
-/

/-- A JSON value, as produced by Flask request parsing. -/
inductive JValue where
  | null : JValue
  | bool : Bool → JValue
  | num : ℚ → JValue
  | str : String → JValue
  | arr : List JValue → JValue
  | obj : List (String × JValue) → JValue

/-- A JSON object: an insertion-ordered dict with (assumed) unique keys. -/
abbrev JObj := List (String × JValue)

/-- A Python exception, classified the way the handlers' `except` clauses
classify them: `KeyError` (carrying the missing key), `ValueError` (carrying
its message), or any other exception class (`TypeError`, `AttributeError`,
arbitrary collaborator exceptions, ...) carrying its `str()`. -/
inductive PyErr where
  | keyError : String → PyErr
  | valueError : String → PyErr
  | otherError : String → PyErr
deriving DecidableEq

deriving instance DecidableEq for Except

/-- Wrap a string in single quotes (as Python `repr` does for `KeyError`
arguments and as the hand-written messages in `server.py` do). -/
def pyQuote (s : String) : String := "\x27" ++ s ++ "\x27"

/-- Key lookup in a JSON object (Python `d[k]` on a dict, minus the raise). -/
def lookupKey (o : JObj) (k : String) : Option JValue :=
  (o.find? (fun p => p.1 == k)).map (fun p => p.2)

/-- Python `d[k]`: the value, or a `KeyError` naming `k`. -/
def getKey (o : JObj) (k : String) : Except PyErr JValue :=
  match lookupKey o k with
  | some v => .ok v
  | none => .error (.keyError k)

/-- Python `d.get(k, default)`. -/
def getD (o : JObj) (k : String) (default : JValue) : JValue :=
  match lookupKey o k with
  | some v => v
  | none => default

/-- A Python value viewed as a number, if it is one: floats/ints are `num`,
and `bool` is an `int` subclass with `True = 1`, `False = 0`. -/
def pyAsNum : JValue → Option ℚ
  | .num q => some q
  | .bool b => some (if b then 1 else 0)
  | _ => none

/-- Substring test, for Python `k in s` on strings. -/
def strContains (s pat : String) : Bool := (s.splitOn pat).length != 1

/-- Is this JSON value the given string? (Python `==` across types: a
non-`str` value never equals a `str`.) -/
def isStrEq (k : String) : JValue → Bool
  | .str s => s == k
  | _ => false

/-- Python `k in v` for a string `k`: key membership on dicts, substring on
strings, element membership on lists; `TypeError` otherwise. -/
def pyContains (k : String) : JValue → Except PyErr Bool
  | .obj kvs => .ok (kvs.any (fun p => p.1 == k))
  | .str s => .ok (strContains s k)
  | .arr xs => .ok (xs.any (isStrEq k))
  | _ => .error (.otherError "TypeError: argument of type is not iterable")

/-- Python `v[k]` for a string key `k`: dict lookup (raising `KeyError`), and
`TypeError` on every non-dict. -/
def pySubscript (v : JValue) (k : String) : Except PyErr JValue :=
  match v with
  | .obj kvs => getKey kvs k
  | _ => .error (.otherError "TypeError: value is not subscriptable with str")

/-- Python `iter(v)` materialised as a list: list elements, string characters,
dict keys; `TypeError` otherwise. -/
def pyIter : JValue → Except PyErr (List JValue)
  | .arr xs => .ok xs
  | .str s => .ok (s.data.map (fun c => .str (String.mk [c])))
  | .obj kvs => .ok (kvs.map (fun p => .str p.1))
  | _ => .error (.otherError "TypeError: object is not iterable")

/-- Python `v.items()`: the key/value pairs of a dict, `AttributeError` on
anything else. -/
def pyItems : JValue → Except PyErr JObj
  | .obj kvs => .ok kvs
  | _ => .error (.otherError "AttributeError: object has no attribute items")

/-- The default sampling temperature `0.2`, written as the reduced rational
`1/5` so that it evaluates definitionally. -/
def defaultTemp : ℚ := ⟨1, 5, by decide, by decide⟩

/-- The default `max_tokens`, `131072`. -/
def defaultMaxTokens : ℚ := 131072

/-- The message raised for an out-of-range temperature. -/
def temperatureMsg : String := "Temperature must be between 0.0 and 1.0"

/-- The message raised for an out-of-range max_tokens. -/
def maxTokensMsg : String := "Max tokens must be between 1 and 131072"

/-- The message raised for an invalid citation mode. -/
def citationModeMsg : String :=
  "Citation mode must be either " ++ pyQuote "fast" ++ " or " ++ pyQuote "accurate"

/-- `validate_temperature` from `server.py`: raises `ValueError` unless
`0.0 <= temperature <= 1.0`; a non-numeric argument makes the chained
comparison itself raise `TypeError`. -/
def validate_temperature (temperature : JValue) : Except PyErr Unit :=
  match pyAsNum temperature with
  | some q =>
    if 0 ≤ q ∧ q ≤ 1 then .ok ()
    else .error (.valueError temperatureMsg)
  | none => .error (.otherError "TypeError: comparison not supported between float and non-number")

/-- `validate_max_tokens` from `server.py`: raises `ValueError` unless
`1 <= max_tokens <= 131072`; a non-numeric argument raises `TypeError`. -/
def validate_max_tokens (max_tokens : JValue) : Except PyErr Unit :=
  match pyAsNum max_tokens with
  | some q =>
    if 1 ≤ q ∧ q ≤ 131072 then .ok ()
    else .error (.valueError maxTokensMsg)
  | none => .error (.otherError "TypeError: comparison not supported between int and non-number")

/-- `validate_citation_mode` from `server.py`: raises `ValueError` unless the
value is (Python-`==`) a member of `['fast', 'accurate']`. -/
def validate_citation_mode (citation_mode : JValue) : Except PyErr Unit :=
  if isStrEq "fast" citation_mode || isStrEq "accurate" citation_mode then .ok ()
  else .error (.valueError citationModeMsg)

/-- The `ValueError` message for a tool missing field `f`. -/
def toolFieldMsg (f : String) : String :=
  "Each tool must have a " ++ pyQuote f ++ " field"

/-- The `ValueError` message for parameter `p` missing field `f`. -/
def paramFieldMsg (p f : String) : String :=
  "Parameter " ++ pyQuote p ++ " must have a " ++ pyQuote f ++ " field"

/-- The inner loop of `validate_tools` over
`tool['parameter_definitions'].items()`. -/
def validate_param_defs : JObj → Except PyErr Unit
  | [] => .ok ()
  | (param_name, param_def) :: rest => do
    let hasDescr ← pyContains "description" param_def
    if !hasDescr then throw (.valueError (paramFieldMsg param_name "description"))
    let hasType ← pyContains "type" param_def
    if !hasType then throw (.valueError (paramFieldMsg param_name "type"))
    let hasReq ← pyContains "required" param_def
    if !hasReq then throw (.valueError (paramFieldMsg param_name "required"))
    validate_param_defs rest

/-- One iteration of the outer loop of `validate_tools`. -/
def validate_tool (tool : JValue) : Except PyErr Unit := do
  let hasName ← pyContains "name" tool
  if !hasName then throw (.valueError (toolFieldMsg "name"))
  let hasDescr ← pyContains "description" tool
  if !hasDescr then throw (.valueError (toolFieldMsg "description"))
  let hasPd ← pyContains "parameter_definitions" tool
  if !hasPd then throw (.valueError (toolFieldMsg "parameter_definitions"))
  let pd ← pySubscript tool "parameter_definitions"
  let kvs ← pyItems pd
  validate_param_defs kvs

/-- The outer loop of `validate_tools`, tool by tool. -/
def validate_tools_list : List JValue → Except PyErr Unit
  | [] => .ok ()
  | t :: ts => do
    validate_tool t
    validate_tools_list ts

/-- `validate_tools` from `server.py`. -/
def validate_tools (tools : JValue) : Except PyErr Unit := do
  let ts ← pyIter tools
  validate_tools_list ts

example : validate_tools (.arr []) = .ok () := rfl
example : validate_tools (.arr [.obj []]) = .error (.valueError (toolFieldMsg "name")) := rfl
example :
    validate_tools (.arr [.obj [("name", .str "x")]]) =
      .error (.valueError (toolFieldMsg "description")) := rfl
example :
    validate_tools (.arr [.obj [("name", .str "x"), ("description", .str "d"),
        ("parameter_definitions", .obj [("q", .obj [("description", .str "d")])])]]) =
      .error (.valueError (paramFieldMsg "q" "type")) := rfl
example : validate_temperature (.num (3/2)) = .error (.valueError temperatureMsg) := by
  norm_num [validate_temperature, pyAsNum]
example : validate_max_tokens (.num (5/2)) = .ok () := by
  norm_num [validate_max_tokens, pyAsNum]
example : validate_citation_mode (.str "fast") = .ok () := rfl
example : validate_citation_mode (.num 3) = .error (.valueError citationModeMsg) := rfl

/-- The opaque inference-library collaborator: the templating operations on
the tokenizer and the `generate` operation on the model/tokenizer pair.
`generate` receives the prompt and, when the handler forwards them, the raw
`temp` and `max_tokens` arguments (`none` when the handler omits them, as
`/tool` and `/rag` do); any operation may raise any Python exception. -/
structure Collab where
  apply_chat_template : JValue → Except PyErr JValue
  apply_tool_use_template : JValue → JValue → Except PyErr JValue
  apply_grounded_generation_template : JValue → JValue → JValue → Except PyErr JValue
  generate : JValue → Option JValue → Option JValue → Except PyErr String

/-- An HTTP response: status code and JSON body. -/
abbrev HResp := Nat × JObj

/-- The shared `try/except` tail of every handler in `server.py`:
`KeyError` → 400 `{"error": "Missing key in request JSON: <str(e)>"}` (where
`str(KeyError(k))` is `'k'` with quotes), `ValueError` → 400
`{"error": str(e)}`, any other exception → 500
`{"error": "An unexpected error occurred", "details": str(e)}`, and a normal
return → 200 with the handler body. -/
def respond (r : Except PyErr JObj) : HResp :=
  match r with
  | .ok body => (200, body)
  | .error (.keyError k) =>
    (400, [("error", .str ("Missing key in request JSON: " ++ pyQuote k))])
  | .error (.valueError m) => (400, [("error", .str m)])
  | .error (.otherError m) =>
    (500, [("error", .str "An unexpected error occurred"), ("details", .str m)])

/-- The `try` body of `generate_text` (`POST /generate`). -/
def genPipeline (c : Collab) (data : JObj) : Except PyErr JObj := do
  let prompt ← getKey data "prompt"
  let temperature := getD data "temperature" (.num defaultTemp)
  let max_tokens := getD data "max_tokens" (.num defaultMaxTokens)
  validate_temperature temperature
  validate_max_tokens max_tokens
  let response ← c.generate prompt (some temperature) (some max_tokens)
  pure [("generated_text", .str response)]

/-- `generate_text` from `server.py`: the `POST /generate` handler. -/
def generate_text (c : Collab) (data : JObj) : HResp :=
  respond (genPipeline c data)

/-- The `try` body of `chat` (`POST /chat`). -/
def chatPipeline (c : Collab) (data : JObj) : Except PyErr JObj := do
  let conversation ← getKey data "conversation"
  let temperature := getD data "temperature" (.num defaultTemp)
  let max_tokens := getD data "max_tokens" (.num defaultMaxTokens)
  validate_temperature temperature
  validate_max_tokens max_tokens
  let inputs ← c.apply_chat_template conversation
  let response ← c.generate inputs (some temperature) (some max_tokens)
  pure [("generated_text", .str response)]

/-- `chat` from `server.py`: the `POST /chat` handler. -/
def chat (c : Collab) (data : JObj) : HResp :=
  respond (chatPipeline c data)

/-- The `try` body of `use_tool` (`POST /tool`).  Note that `generate` is
called without `temp`/`max_tokens`. -/
def toolPipeline (c : Collab) (data : JObj) : Except PyErr JObj := do
  let conversation ← getKey data "conversation"
  let tools ← getKey data "tools"
  validate_tools tools
  let formatted_input ← c.apply_tool_use_template conversation tools
  let response ← c.generate formatted_input none none
  pure [("tool_response", .str response)]

/-- `use_tool` from `server.py`: the `POST /tool` handler. -/
def use_tool (c : Collab) (data : JObj) : HResp :=
  respond (toolPipeline c data)

/-- The `try` body of `rag` (`POST /rag`).  Note that `generate` is called
without `temp`/`max_tokens`. -/
def ragPipeline (c : Collab) (data : JObj) : Except PyErr JObj := do
  let conversation ← getKey data "conversation"
  let documents ← getKey data "documents"
  let citation_mode := getD data "citation_mode" (.str "accurate")
  validate_citation_mode citation_mode
  let formatted_input ← c.apply_grounded_generation_template conversation documents citation_mode
  let response ← c.generate formatted_input none none
  pure [("rag_response", .str response)]

/-- `rag` from `server.py`: the `POST /rag` handler. -/
def rag (c : Collab) (data : JObj) : HResp :=
  respond (ragPipeline c data)

/-- The four POST endpoints of the server. -/
inductive Endpoint where
  | genEp : Endpoint
  | chatEp : Endpoint
  | toolEp : Endpoint
  | ragEp : Endpoint
deriving DecidableEq

/-- The `try` body of the handler routed to by an endpoint. -/
def endpointPipeline (e : Endpoint) (c : Collab) (data : JObj) : Except PyErr JObj :=
  match e with
  | .genEp => genPipeline c data
  | .chatEp => chatPipeline c data
  | .toolEp => toolPipeline c data
  | .ragEp => ragPipeline c data

/-- Dispatch one request to the handler of its endpoint. -/
def runEndpoint (c : Collab) (e : Endpoint) (data : JObj) : HResp :=
  respond (endpointPipeline e c data)

/-- A whole server run: the loaded model/tokenizer pair is process-wide and
immutable, each request is handled independently, so a run is the pointwise
handling of the request sequence. -/
def runServer (c : Collab) (reqs : List (Endpoint × JObj)) : List HResp :=
  reqs.map (fun p => runEndpoint c p.1 p.2)

/-- A simple deterministic collaborator used in concrete checks. -/
def cOk : Collab where
  apply_chat_template := fun _ => .ok (.str "chat-prompt")
  apply_tool_use_template := fun _ _ => .ok (.str "tool-prompt")
  apply_grounded_generation_template := fun _ _ _ => .ok (.str "rag-prompt")
  generate := fun _ _ _ => .ok "model output"

example : generate_text cOk [("prompt", .str "Hello")] =
    (200, [("generated_text", .str "model output")]) := rfl
example : generate_text cOk [] =
    (400, [("error", .str ("Missing key in request JSON: " ++ pyQuote "prompt"))]) := rfl

@[simp] theorem pyBind_ok {α β : Type} (a : α) (f : α → Except PyErr β) :
    (Except.ok a : Except PyErr α) >>= f = f a := rfl

@[simp] theorem pyBind_error {α β : Type} (e : PyErr) (f : α → Except PyErr β) :
    (Except.error e : Except PyErr α) >>= f = .error e := rfl

@[simp] theorem pyPure {α : Type} (a : α) : (pure a : Except PyErr α) = .ok a := rfl

@[simp] theorem pyThrow {α : Type} (e : PyErr) : (throw e : Except PyErr α) = .error e := rfl

/-- The 400 response body for a missing top-level key. -/
def missingKeyBody (k : String) : JObj :=
  [("error", .str ("Missing key in request JSON: " ++ pyQuote k))]

/-- C9: with the collaborator's load/templating/generation operations modelled
as fixed deterministic functions, identical request bodies sent to the same
endpoint anywhere in a server run produce identical responses (status code and
body): every occurrence of the pair `(e, r)` in the request sequence is
answered by the same value `runEndpoint c e r`. -/
theorem runServer_deterministic (c : Collab) (e : Endpoint) (r : JObj)
    (pre mid post : List (Endpoint × JObj)) :
    runServer c (pre ++ (e, r) :: mid ++ (e, r) :: post) =
      runServer c pre ++ runEndpoint c e r ::
        (runServer c mid ++ runEndpoint c e r :: runServer c post) := by
  simp [runServer]

/-- C7: on each of the four endpoints, a request body lacking a required
top-level key is answered 400 with body
`{"error": "Missing key in request JSON: '<k>'"}` naming the key; when an
endpoint has two required keys, the one the handler reads first
(`conversation`) is the one named if both are absent. -/
theorem missing_key_400 (c : Collab) (data : JObj) :
    (lookupKey data "prompt" = none →
      generate_text c data = (400, missingKeyBody "prompt")) ∧
    (lookupKey data "conversation" = none →
      chat c data = (400, missingKeyBody "conversation")) ∧
    (lookupKey data "conversation" = none →
      use_tool c data = (400, missingKeyBody "conversation")) ∧
    (∀ v, lookupKey data "conversation" = some v → lookupKey data "tools" = none →
      use_tool c data = (400, missingKeyBody "tools")) ∧
    (lookupKey data "conversation" = none →
      rag c data = (400, missingKeyBody "conversation")) ∧
    (∀ v, lookupKey data "conversation" = some v → lookupKey data "documents" = none →
      rag c data = (400, missingKeyBody "documents")) := by
  refine ⟨fun h => ?_, fun h => ?_, fun h => ?_, fun v h h2 => ?_, fun h => ?_,
    fun v h h2 => ?_⟩ <;>
    simp [generate_text, chat, use_tool, rag, genPipeline, chatPipeline, toolPipeline,
      ragPipeline, getKey, h, respond, missingKeyBody] <;>
    simp [h2, respond, missingKeyBody]

theorem missing_key_400_witness :
    lookupKey [] "prompt" = none ∧
    generate_text cOk [] = (400, missingKeyBody "prompt") ∧
    lookupKey [("conversation", JValue.null)] "tools" = none ∧
    use_tool cOk [("conversation", JValue.null)] = (400, missingKeyBody "tools") :=
  ⟨rfl, (missing_key_400 cOk []).1 rfl, rfl,
    (missing_key_400 cOk [("conversation", .null)]).2.2.2.1 .null rfl rfl⟩

/-- C5: for every numeric temperature `q`, `validate_temperature` raises
`ValueError "Temperature must be between 0.0 and 1.0"` exactly when `q` is
outside `[0, 1]` and succeeds exactly when `q` is inside; consequently
`/generate` and `/chat` answer 400 with that message for every out-of-range
numeric temperature. -/
theorem temperature_range_400 (q : ℚ) (c : Collab) (p conv : JValue) :
    (validate_temperature (.num q) = .error (.valueError temperatureMsg) ↔
      ¬(0 ≤ q ∧ q ≤ 1)) ∧
    (validate_temperature (.num q) = .ok () ↔ (0 ≤ q ∧ q ≤ 1)) ∧
    (¬(0 ≤ q ∧ q ≤ 1) →
      generate_text c [("prompt", p), ("temperature", .num q)] =
        (400, [("error", .str temperatureMsg)])) ∧
    (¬(0 ≤ q ∧ q ≤ 1) →
      chat c [("conversation", conv), ("temperature", .num q)] =
        (400, [("error", .str temperatureMsg)])) := by
  refine ⟨?_, ?_, fun h => ?_, fun h => ?_⟩
  · simp [validate_temperature, pyAsNum]
  · simp [validate_temperature, pyAsNum]
  · simp [generate_text, genPipeline, getKey, getD, lookupKey, respond,
      validate_temperature, pyAsNum, h]
  · simp [chat, chatPipeline, getKey, getD, lookupKey, respond,
      validate_temperature, pyAsNum, h]

theorem temperature_range_400_witness :
    ¬((0:ℚ) ≤ 2 ∧ (2:ℚ) ≤ 1) ∧
    validate_temperature (.num 2) = .error (.valueError temperatureMsg) ∧
    validate_temperature (.num 1) = .ok () ∧
    generate_text cOk [("prompt", .str "Hi"), ("temperature", .num 2)] =
      (400, [("error", .str temperatureMsg)]) :=
  have h : ¬((0:ℚ) ≤ 2 ∧ (2:ℚ) ≤ 1) := by norm_num
  ⟨h, (temperature_range_400 2 cOk (.str "Hi") .null).1.mpr h,
    (temperature_range_400 1 cOk (.str "Hi") .null).2.1.mpr (by norm_num),
    (temperature_range_400 2 cOk (.str "Hi") .null).2.2.1 h⟩

/-- The rational `5/2`, written in reduced form so it evaluates
definitionally: a concrete non-integer `max_tokens` value. -/
def fiveHalves : ℚ := ⟨5, 2, by decide, by decide⟩

/-- C6 counterexample: `validate_max_tokens` accepts the non-integer `5/2`
(Python `1 <= 2.5 <= 131072` is true, and no integrality check exists), so
the claim "fails unless v is an integer ... in particular it fails for
non-integer values" is false on the code. -/
theorem validate_max_tokens_accepts_noninteger :
    (fiveHalves.num = 5 ∧ fiveHalves.den = 2) ∧
    validate_max_tokens (.num fiveHalves) = .ok () :=
  ⟨⟨by decide, by decide⟩, by decide⟩

/-- C6 amended: for every numeric `max_tokens` value `q`,
`validate_max_tokens` succeeds iff `1 ≤ q ≤ 131072` — integrality is not
checked — and raises `ValueError "Max tokens must be between 1 and 131072"`
otherwise; consequently `/generate` and `/chat` answer 400 with that message
for every numeric `max_tokens` outside `[1, 131072]`. -/
theorem max_tokens_range_400 (q : ℚ) (c : Collab) (p conv : JValue) :
    (validate_max_tokens (.num q) = .ok () ↔ (1 ≤ q ∧ q ≤ 131072)) ∧
    (validate_max_tokens (.num q) = .error (.valueError maxTokensMsg) ↔
      ¬(1 ≤ q ∧ q ≤ 131072)) ∧
    (¬(1 ≤ q ∧ q ≤ 131072) →
      generate_text c [("prompt", p), ("max_tokens", .num q)] =
        (400, [("error", .str maxTokensMsg)])) ∧
    (¬(1 ≤ q ∧ q ≤ 131072) →
      chat c [("conversation", conv), ("max_tokens", .num q)] =
        (400, [("error", .str maxTokensMsg)])) := by
  have hdt : validate_temperature (.num defaultTemp) = .ok () := by decide
  refine ⟨?_, ?_, fun h => ?_, fun h => ?_⟩
  · simp [validate_max_tokens, pyAsNum]
  · simp [validate_max_tokens, pyAsNum]
  · simp [generate_text, genPipeline, getKey, getD, lookupKey, respond, hdt,
      validate_max_tokens, pyAsNum, h]
  · simp [chat, chatPipeline, getKey, getD, lookupKey, respond, hdt,
      validate_max_tokens, pyAsNum, h]

theorem max_tokens_range_400_witness :
    ¬((1:ℚ) ≤ 0 ∧ (0:ℚ) ≤ 131072) ∧
    validate_max_tokens (.num 0) = .error (.valueError maxTokensMsg) ∧
    generate_text cOk [("prompt", .str "Hi"), ("max_tokens", .num 0)] =
      (400, [("error", .str maxTokensMsg)]) :=
  have h : ¬((1:ℚ) ≤ 0 ∧ (0:ℚ) ≤ 131072) := by norm_num
  ⟨h, (max_tokens_range_400 0 cOk (.str "Hi") .null).2.1.mpr h,
    (max_tokens_range_400 0 cOk (.str "Hi") .null).2.2.1 h⟩

@[simp] theorem isStrEq_eq_true (k : String) (v : JValue) :
    isStrEq k v = true ↔ v = .str k := by
  cases v <;> simp [isStrEq]

/-- C8: `validate_citation_mode` succeeds exactly on the strings `"fast"` and
`"accurate"` and raises
`ValueError "Citation mode must be either 'fast' or 'accurate'"` on every
other JSON value, so `/rag` answers 400 with that message for every other
present `citation_mode`; when the key is absent, `/rag` validates the default
`"accurate"` successfully and proceeds to templating and generation with it. -/
theorem citation_mode_check (v : JValue) (c : Collab) (conv docs : JValue) :
    (validate_citation_mode v = .ok () ↔ (v = .str "fast" ∨ v = .str "accurate")) ∧
    (validate_citation_mode v = .error (.valueError citationModeMsg) ↔
      ¬(v = .str "fast" ∨ v = .str "accurate")) ∧
    (¬(v = .str "fast" ∨ v = .str "accurate") →
      rag c [("conversation", conv), ("documents", docs), ("citation_mode", v)] =
        (400, [("error", .str citationModeMsg)])) ∧
    (ragPipeline c [("conversation", conv), ("documents", docs)] =
      c.apply_grounded_generation_template conv docs (.str "accurate") >>= fun fi =>
        c.generate fi none none >>= fun r => pure [("rag_response", .str r)]) := by
  have hv : validate_citation_mode v = .ok () ↔ (v = .str "fast" ∨ v = .str "accurate") := by
    rw [validate_citation_mode]
    split <;> rename_i hcond
    · simp only [Bool.or_eq_true, isStrEq_eq_true] at hcond
      simp [hcond]
    · simp only [Bool.or_eq_true, isStrEq_eq_true] at hcond
      simp [hcond]
  have hv2 : ∀ h : ¬(v = .str "fast" ∨ v = .str "accurate"),
      validate_citation_mode v = .error (.valueError citationModeMsg) := by
    intro h
    rw [validate_citation_mode, if_neg]
    simp only [Bool.or_eq_true, isStrEq_eq_true]
    exact h
  refine ⟨hv, ⟨fun he hor => ?_, fun h => hv2 h⟩, fun h => ?_, rfl⟩
  · rw [hv.mpr hor] at he
    exact Except.noConfusion he
  · simp [rag, ragPipeline, getKey, getD, lookupKey, respond, hv2 h]

theorem citation_mode_check_witness :
    ¬(JValue.str "slow" = JValue.str "fast" ∨ JValue.str "slow" = JValue.str "accurate") ∧
    validate_citation_mode (.str "accurate") = .ok () ∧
    rag cOk [("conversation", JValue.null), ("documents", JValue.arr []),
      ("citation_mode", JValue.str "slow")] =
      (400, [("error", JValue.str citationModeMsg)]) :=
  have h : ¬(JValue.str "slow" = JValue.str "fast" ∨
      JValue.str "slow" = JValue.str "accurate") := by simp
  ⟨h, (citation_mode_check (.str "accurate") cOk .null (.arr [])).1.mpr (Or.inr rfl),
    (citation_mode_check (.str "slow") cOk .null (.arr [])).2.2.1 h⟩

/-- A collaborator whose generation operation raises a `ValueError`. -/
def cValErr : Collab where
  apply_chat_template := fun _ => .ok (.str "chat-prompt")
  apply_tool_use_template := fun _ _ => .ok (.str "tool-prompt")
  apply_grounded_generation_template := fun _ _ _ => .ok (.str "rag-prompt")
  generate := fun _ _ _ => .error (.valueError "collaborator value error")

/-- C2 counterexample: the handlers dispatch on the exception class, not on
its origin, so a collaborator generation failure raised as a `ValueError` is
caught by the `except ValueError` clause and answered 400 with the message as
the error body — not 500 with an "unexpected error" body as the claim
states. -/
theorem collaborator_valueerror_gets_400 :
    generate_text cValErr [("prompt", JValue.str "hi")] =
      (400, [("error", JValue.str "collaborator value error")]) := rfl

/-- C2 amended: every failure that is neither a `KeyError` nor a `ValueError`
— which includes every collaborator templating or generation failure of any
other exception class — is answered 500 with body
`{"error": "An unexpected error occurred", "details": <original message>}`,
on all four endpoints.  (Collaborator failures raised as `KeyError` or
`ValueError` are instead mapped to the 400 responses of those classes.) -/
theorem unexpected_error_500 (e : Endpoint) (c : Collab) (data : JObj) (m : String)
    (h : endpointPipeline e c data = .error (.otherError m)) :
    runEndpoint c e data =
      (500, [("error", .str "An unexpected error occurred"), ("details", .str m)]) := by
  simp [runEndpoint, respond, h]

/-- A collaborator whose generation operation raises a non-ValueError,
non-KeyError exception. -/
def cBoom : Collab where
  apply_chat_template := fun _ => .ok (.str "chat-prompt")
  apply_tool_use_template := fun _ _ => .ok (.str "tool-prompt")
  apply_grounded_generation_template := fun _ _ _ => .ok (.str "rag-prompt")
  generate := fun _ _ _ => .error (.otherError "boom")

theorem unexpected_error_500_witness :
    endpointPipeline .genEp cBoom [("prompt", JValue.str "x")] =
      .error (.otherError "boom") ∧
    runEndpoint cBoom .genEp [("prompt", JValue.str "x")] =
      (500, [("error", JValue.str "An unexpected error occurred"),
        ("details", JValue.str "boom")]) :=
  ⟨rfl, unexpected_error_500 .genEp cBoom [("prompt", .str "x")] "boom" rfl⟩

/-- C3 counterexample: a field that is present but of the wrong type is not
answered 400 with a validation message: a string temperature makes the
chained comparison in `validate_temperature` raise `TypeError`, which falls
to the generic `except Exception` clause and is answered 500. -/
theorem malformed_temperature_gets_500 :
    generate_text cOk [("prompt", JValue.str "x"), ("temperature", JValue.str "hot")] =
      (500, [("error", JValue.str "An unexpected error occurred"),
        ("details", JValue.str
          "TypeError: comparison not supported between float and non-number")]) := rfl

/-- C3 amended: a request field that is present but out of range is answered
400 with the specific violated constraint's message — every `ValueError`
raised inside a handler's `try` body is answered
`(400, {"error": <message>})`, on all four endpoints — while a field of the
wrong (non-numeric) type makes the comparison raise `TypeError`, which is
answered 500, not 400. -/
theorem value_validation_400 (e : Endpoint) (c : Collab) (data : JObj) (m : String)
    (h : endpointPipeline e c data = .error (.valueError m)) :
    runEndpoint c e data = (400, [("error", .str m)]) := by
  simp [runEndpoint, respond, h]

theorem value_validation_400_witness :
    endpointPipeline .genEp cOk [("prompt", JValue.str "x"), ("temperature", JValue.num 2)] =
      .error (.valueError temperatureMsg) ∧
    runEndpoint cOk .genEp [("prompt", JValue.str "x"), ("temperature", JValue.num 2)] =
      (400, [("error", JValue.str temperatureMsg)]) :=
  ⟨rfl, value_validation_400 .genEp cOk
    [("prompt", .str "x"), ("temperature", .num 2)] temperatureMsg rfl⟩

/-- C4: on a successful request, `/generate` and `/chat` call the generation
collaborator with the prompt together with the request's `temperature` and
`max_tokens` — after applying the defaults `0.2` (the rational `1/5`, see
`defaultTemp`) and `131072` when the keys are absent — while `/tool` and
`/rag` call the generation collaborator without forwarding any temperature or
max_tokens values (`none` in both argument positions). -/
theorem generation_call_arguments (c : Collab) (p t m conv tools docs cm : JValue)
    (ht : validate_temperature t = .ok ()) (hm : validate_max_tokens m = .ok ())
    (htools : validate_tools tools = .ok ()) (hcm : validate_citation_mode cm = .ok ()) :
    (defaultTemp.num = 1 ∧ defaultTemp.den = 5 ∧ defaultMaxTokens = 131072) ∧
    (genPipeline c [("prompt", p), ("temperature", t), ("max_tokens", m)] =
      c.generate p (some t) (some m) >>= fun r => pure [("generated_text", .str r)]) ∧
    (genPipeline c [("prompt", p)] =
      c.generate p (some (.num defaultTemp)) (some (.num defaultMaxTokens)) >>= fun r =>
        pure [("generated_text", .str r)]) ∧
    (chatPipeline c [("conversation", conv), ("temperature", t), ("max_tokens", m)] =
      c.apply_chat_template conv >>= fun inputs =>
        c.generate inputs (some t) (some m) >>= fun r => pure [("generated_text", .str r)]) ∧
    (toolPipeline c [("conversation", conv), ("tools", tools)] =
      c.apply_tool_use_template conv tools >>= fun fi =>
        c.generate fi none none >>= fun r => pure [("tool_response", .str r)]) ∧
    (ragPipeline c [("conversation", conv), ("documents", docs), ("citation_mode", cm)] =
      c.apply_grounded_generation_template conv docs cm >>= fun fi =>
        c.generate fi none none >>= fun r => pure [("rag_response", .str r)]) := by
  refine ⟨⟨rfl, rfl, rfl⟩, ?_, ?_, ?_, ?_, ?_⟩
  · simp [genPipeline, getKey, getD, lookupKey, ht, hm]
  · simp [genPipeline, getKey, getD, lookupKey,
      show validate_temperature (.num defaultTemp) = .ok () from by decide,
      show validate_max_tokens (.num defaultMaxTokens) = .ok () from by decide]
  · simp [chatPipeline, getKey, getD, lookupKey, ht, hm]
  · simp [toolPipeline, getKey, getD, lookupKey, htools]
  · simp [ragPipeline, getKey, getD, lookupKey, hcm]

theorem generation_call_arguments_witness :
    validate_temperature (.num 1) = .ok () ∧
    validate_max_tokens (.num 5) = .ok () ∧
    validate_tools (.arr []) = .ok () ∧
    validate_citation_mode (.str "fast") = .ok () ∧
    genPipeline cOk [("prompt", JValue.str "Hi"), ("temperature", JValue.num 1),
      ("max_tokens", JValue.num 5)] = .ok [("generated_text", JValue.str "model output")] ∧
    toolPipeline cOk [("conversation", JValue.null), ("tools", JValue.arr [])] =
      .ok [("tool_response", JValue.str "model output")] :=
  ⟨rfl, rfl, rfl, rfl,
    ((generation_call_arguments cOk (.str "Hi") (.num 1) (.num 5) .null (.arr [])
      .null (.str "fast") rfl rfl rfl rfl).2.1).trans rfl,
    ((generation_call_arguments cOk (.str "Hi") (.num 1) (.num 5) .null (.arr [])
      .null (.str "fast") rfl rfl rfl rfl).2.2.2.2.1).trans rfl⟩

/-- C10: `validate_tools` raises nothing on an empty tools list, and nothing
on a tool whose three fields are present with an empty
`parameter_definitions` mapping — both loops are vacuous — so such `/tool`
requests pass validation and proceed to templating and generation. -/
theorem empty_tools_pass (c : Collab) (conv nv dv : JValue) :
    validate_tools (.arr []) = .ok () ∧
    validate_tools (.arr [.obj [("name", nv), ("description", dv),
      ("parameter_definitions", .obj [])]]) = .ok () ∧
    (toolPipeline c [("conversation", conv), ("tools", .arr [])] =
      c.apply_tool_use_template conv (.arr []) >>= fun fi =>
        c.generate fi none none >>= fun r => pure [("tool_response", .str r)]) ∧
    (toolPipeline c [("conversation", conv),
        ("tools", .arr [.obj [("name", nv), ("description", dv),
          ("parameter_definitions", .obj [])]])] =
      c.apply_tool_use_template conv (.arr [.obj [("name", nv), ("description", dv),
          ("parameter_definitions", .obj [])]]) >>= fun fi =>
        c.generate fi none none >>= fun r => pure [("tool_response", .str r)]) :=
  ⟨rfl, rfl, rfl, rfl⟩

/-- Does a JSON value, viewed as a mapping, have key `k`? -/
def jHasKey (v : JValue) (k : String) : Bool :=
  match v with
  | .obj kvs => kvs.any (fun p => p.1 == k)
  | _ => false

/-- Specification side of C1: the first missing field among the parameter
definitions, in parameter insertion order, checking `description`, `type`,
`required` in that order for each parameter. -/
def specParamFailure : JObj → Option String
  | [] => none
  | (pname, pdef) :: rest =>
    if !(jHasKey pdef "description") then some (paramFieldMsg pname "description")
    else if !(jHasKey pdef "type") then some (paramFieldMsg pname "type")
    else if !(jHasKey pdef "required") then some (paramFieldMsg pname "required")
    else specParamFailure rest

/-- Specification side of C1: for a single tool, the first missing field —
the tool's own `name`, `description`, `parameter_definitions` (in that
order) before its parameter definitions. -/
def specToolFailure (tool : JObj) : Option String :=
  if !(jHasKey (.obj tool) "name") then some (toolFieldMsg "name")
  else if !(jHasKey (.obj tool) "description") then some (toolFieldMsg "description")
  else if !(jHasKey (.obj tool) "parameter_definitions") then
    some (toolFieldMsg "parameter_definitions")
  else
    match lookupKey tool "parameter_definitions" with
    | some (.obj kvs) => specParamFailure kvs
    | _ => none

/-- Specification side of C1: the first failure over the tools in tool
order. -/
def specToolsFailure : List JObj → Option String
  | [] => none
  | t :: ts =>
    match specToolFailure t with
    | some msg => some msg
    | none => specToolsFailure ts

/-- Turn an optional first-failure message into the validator's result. -/
def failureToExcept (r : Option String) : Except PyErr Unit :=
  match r with
  | none => .ok ()
  | some msg => .error (.valueError msg)

/-- Is the JSON value a mapping? -/
def isObj : JValue → Bool
  | .obj _ => true
  | _ => false

/-- A tool dict is well-shaped when its `parameter_definitions` value, if
present, is a mapping whose values are mappings (the `ToolRequest` data
model); on ill-shaped tools the Python code raises `AttributeError` or
`TypeError` instead of a validation message. -/
def wellShapedTool (tool : JObj) : Bool :=
  match lookupKey tool "parameter_definitions" with
  | some (.obj kvs) => kvs.all (fun p => isObj p.2)
  | some _ => false
  | none => true

theorem lookupKey_none_iff (o : JObj) (k : String) :
    lookupKey o k = none ↔ (o.any (fun p => p.1 == k)) = false := by
  simp [lookupKey, List.find?_eq_none, List.any_eq_false]

theorem validate_param_defs_eq_spec (params : JObj)
    (h : ∀ a b, (a, b) ∈ params → isObj b = true) :
    validate_param_defs params = failureToExcept (specParamFailure params) := by
  induction params with
  | nil => rfl
  | cons hd tl ih =>
    obtain ⟨pname, pdef⟩ := hd
    have h1 : isObj pdef = true := h pname pdef (by simp)
    have h2 : ∀ a b, (a, b) ∈ tl → isObj b = true := fun a b hb => h a b (by simp [hb])
    cases pdef <;> simp [isObj] at h1
    rename_i kvs
    by_cases hd1 : (kvs.any (fun p => p.1 == "description")) = true
    · by_cases hd2 : (kvs.any (fun p => p.1 == "type")) = true
      · by_cases hd3 : (kvs.any (fun p => p.1 == "required")) = true
        · simp [validate_param_defs, pyContains, specParamFailure, jHasKey,
            hd1, hd2, hd3, ih h2]
        · simp [validate_param_defs, pyContains, specParamFailure, jHasKey,
            hd1, hd2, hd3, failureToExcept]
      · simp [validate_param_defs, pyContains, specParamFailure, jHasKey,
          hd1, hd2, failureToExcept]
    · simp [validate_param_defs, pyContains, specParamFailure, jHasKey,
        hd1, failureToExcept]

theorem validate_tool_eq_spec (tool : JObj) (h : wellShapedTool tool = true) :
    validate_tool (.obj tool) = failureToExcept (specToolFailure tool) := by
  by_cases h1 : (tool.any (fun p => p.1 == "name")) = true
  · by_cases h2 : (tool.any (fun p => p.1 == "description")) = true
    · by_cases h3 : (tool.any (fun p => p.1 == "parameter_definitions")) = true
      · rcases hlk : lookupKey tool "parameter_definitions" with _ | pd
        · exact absurd ((lookupKey_none_iff tool "parameter_definitions").mp hlk)
            (by simp [h3])
        · rw [wellShapedTool, hlk] at h
          cases pd <;> simp at h
          rename_i kvs
          simp [validate_tool, pyContains, specToolFailure, jHasKey, h1, h2, h3,
            pySubscript, getKey, hlk, pyItems, validate_param_defs_eq_spec kvs h]
      · simp [validate_tool, pyContains, specToolFailure, jHasKey, h1, h2, h3,
          failureToExcept]
    · simp [validate_tool, pyContains, specToolFailure, jHasKey, h1, h2,
        failureToExcept]
  · simp [validate_tool, pyContains, specToolFailure, jHasKey, h1, failureToExcept]

/-- C1: on every well-shaped tools list, `validate_tools` succeeds iff no
tool lacks `name`, `description` or `parameter_definitions` and no parameter
definition lacks `description`, `type` or `required`; checking proceeds in
tool order, then parameter insertion order within each tool, with each
tool's own three fields checked before its parameter definitions, the first
failure short-circuits, and the raised `ValueError` message names exactly
the first missing field (or first offending parameter) in that order — the
result is precisely `failureToExcept (specToolsFailure tools)`. -/
theorem validate_tools_first_failure (tools : List JObj)
    (h : tools.all wellShapedTool = true) :
    validate_tools (.arr (tools.map .obj)) = failureToExcept (specToolsFailure tools) := by
  induction tools with
  | nil => rfl
  | cons hd tl ih =>
    simp only [List.all_cons, Bool.and_eq_true] at h
    obtain ⟨h1, h2⟩ := h
    have hstep : validate_tools (.arr ((hd :: tl).map .obj)) =
        validate_tool (.obj hd) >>= fun _ => validate_tools_list (tl.map .obj) := rfl
    rw [hstep, validate_tool_eq_spec hd h1]
    have htl : validate_tools_list (tl.map .obj) = failureToExcept (specToolsFailure tl) := by
      simpa [validate_tools, pyIter] using ih h2
    rcases hsp : specToolFailure hd with _ | msg
    · simp [failureToExcept, specToolsFailure, hsp, htl]
    · simp [failureToExcept, specToolsFailure, hsp]

/-- A well-formed tool with one fully-specified parameter. -/
def toolW1 : JObj :=
  [("name", .str "good"), ("description", .str "d"),
    ("parameter_definitions", .obj [("p", .obj [("description", .str "x"),
      ("type", .str "str"), ("required", .bool true)])])]

/-- A tool whose parameter `q` lacks `type` (and `required`). -/
def toolW2 : JObj :=
  [("name", .str "bad"), ("description", .str "d"),
    ("parameter_definitions", .obj [("q", .obj [("description", .str "x")])])]

theorem validate_tools_first_failure_witness :
    ([toolW1, toolW2] : List JObj).all wellShapedTool = true ∧
    validate_tools (.arr ([toolW1, toolW2].map .obj)) =
      .error (.valueError (paramFieldMsg "q" "type")) :=
  ⟨rfl, (validate_tools_first_failure [toolW1, toolW2] rfl).trans rfl⟩
